import Mathlib

/-!
# Verification of the voiceoverbot voice-message pipeline

Shallow embedding of the bot's core modules:

* `retryAux` / `retry` / `retryInt` embed `retry` from `src/modules/utils.ts`
  (a `for` loop over attempt indices; each failed attempt records the error,
  logs, and awaits a fixed delay; after the loop the recorded `lastError` is
  thrown).  The JS `lastError` starts out `undefined`, so the thrown value is
  modelled as `Option E` (`none` = `undefined`).  Each attempt's invocation and
  each delay wait are recorded as `RetryAction`s so that invocation/delay
  counts are observable.
* `voiceTemplate` and `documentReplyText` embed the reply-formatting
  expressions of the voice handler (telegramHandlers.ts lines 110-113) and the
  audio-document handler (lines 178-181).
* `handleVoice` / `handleDocument` embed the two event handlers of
  `initializeTelegramHandlers` as trace-producing functions: the download and
  transcription backends are oracles indexed by attempt number, and the
  observable side effects (typing start/stop, download calls, delay waits,
  transcription calls, outgoing messages with their parse mode) are returned
  as a list of `Action`s in program order.  Sends are modelled as succeeding;
  per-event constants (chat id, message id) are elided.
* `transcribeSettleEvents` / `transcribeAudioResult` embed the promise
  executor of `transcribeAudio` (aiService.ts lines 44-101): the 60000 ms
  timer rejects with the timeout error, the forced tool's `execute` clears the
  timer and resolves, and a thrown backend error clears the timer and rejects.
  JS promise settle-once semantics are embedded by `promiseFirstSettle`
  (the earliest settlement wins; later settlement attempts are no-ops).
* `extractionEndResult` embeds the transcoder `end` callback of
  `extractAudioFromVideoNote` (the buffer-size check run when the transcoder
  reports success).
-/

set_option maxRecDepth 4000

namespace VoiceoverBot

/-! ## Retry wrapper (src/modules/utils.ts, `retry`) -/

/-- Observable events of one `retry` run: the i-th invocation of `fn`, and the
fixed-delay wait performed after a failed attempt. -/
inductive RetryAction : Type
  | invoke (i : Nat)
  | wait
deriving DecidableEq, Repr

def RetryAction.isInvoke : RetryAction → Bool
  | RetryAction.invoke _ => true
  | RetryAction.wait => false

def RetryAction.isWait : RetryAction → Bool
  | RetryAction.invoke _ => false
  | RetryAction.wait => true

/-- The loop of `retry`: `i` is the current attempt index, the second argument
the number of remaining iterations, `lastError` the error recorded so far
(`none` = the uninitialized JS `undefined`).  Returns the recorded action
trace together with the outcome; a final `Except.error e?` models
`throw lastError`. -/
def retryAux {E A : Type} (op : Nat → Except E A) :
    Nat → Nat → Option E → List RetryAction × Except (Option E) A
  | _, 0, lastError => ([], Except.error lastError)
  | i, r + 1, _ =>
    match op i with
    | Except.ok a => ([RetryAction.invoke i], Except.ok a)
    | Except.error e =>
      let rest := retryAux op (i + 1) r (some e)
      (RetryAction.invoke i :: RetryAction.wait :: rest.1, rest.2)

/-- `retry(fn, retries, delay)` with a natural-number retry count (the delay
duration does not influence the result and is represented by the
`RetryAction.wait` events). -/
def retry {E A : Type} (op : Nat → Except E A) (retries : Nat) :
    List RetryAction × Except (Option E) A :=
  retryAux op 0 retries none

/-- `retry` with an integer retry count: the JS loop `for (i = 0; i < retries)`
runs `retries.toNat` times (zero times for any non-positive count). -/
def retryInt {E A : Type} (op : Nat → Except E A) (retries : Int) :
    List RetryAction × Except (Option E) A :=
  retryAux op 0 retries.toNat none

def countInvokes (l : List RetryAction) : Nat := l.countP RetryAction.isInvoke

def countWaits (l : List RetryAction) : Nat := l.countP RetryAction.isWait

/-! ## Executable string helpers

`String.trim` and `String.startsWith` from core use well-founded recursion on
byte positions and do not reduce in the kernel, so the embedding uses
observably equivalent character-list implementations of the JS operations
`String.prototype.trim` and `String.prototype.startsWith`. -/

/-- JS `s.trim()`: remove whitespace from both ends. -/
def jsTrim (s : String) : String :=
  String.mk (((s.data.dropWhile Char.isWhitespace).reverse.dropWhile
    Char.isWhitespace).reverse)

def listStartsWith : List Char → List Char → Bool
  | [], _ => true
  | _ :: _, [] => false
  | p :: ps, c :: cs => p == c && listStartsWith ps cs

/-- JS `s.startsWith(pre)`. -/
def jsStartsWith (s pre : String) : Bool :=
  listStartsWith pre.data s.data

/-! ## Reply formatting (src/modules/telegramHandlers.ts) -/

/-- The structured result produced by the transcription tool call. -/
structure TranscriptionResult : Type where
  transcribedText : String
  tldr : Option String
deriving DecidableEq, Repr

/-- Voice-handler reply body (telegramHandlers.ts lines 110-113):
`tldr?.trim() && tldr.length > 0 ? `<b>TLDR:</b>...` : transcribedText`.
`tldr = none` models JS `null`/`undefined`; the JS truthiness test of
`tldr.trim()` is `jsTrim tldr ≠ ""`. -/
def voiceTemplate (transcribedText : String) (tldr : Option String) : String :=
  match tldr with
  | none => transcribedText
  | some t =>
    if jsTrim t ≠ "" ∧ t.length > 0 then
      "<b>TLDR:</b>\n" ++ t ++ "\n<b>Original text:</b>\n" ++ transcribedText
    else transcribedText

/-- `document.file_name || 'audio file'` (JS `||` treats the empty string as
falsy). -/
def documentFileLabel : Option String → String
  | some s => if s ≠ "" then s else "audio file"
  | none => "audio file"

def documentHeader (fileName : Option String) : String :=
  "<b>Transcription (Document: " ++ documentFileLabel fileName ++ "):</b>\n"

/-- Document-handler reply body (telegramHandlers.ts lines 178-181): a header
with the file name, then the transcript; `if (tldr)` appends the TLDR block
after the transcript whenever `tldr` is truthy (non-null and non-empty —
whitespace-only strings are truthy in JS). -/
def documentReplyText (fileName : Option String) (transcribedText : String)
    (tldr : Option String) : String :=
  let base := documentHeader fileName ++ transcribedText
  match tldr with
  | some t => if t ≠ "" then base ++ "\n\n<b>TLDR:</b>\n" ++ t else base
  | none => base

/-! ## Event handlers (src/modules/telegramHandlers.ts) -/

/-- The fixed allow-list of audio MIME types for document messages
(telegramHandlers.ts lines 16-23). -/
def supportedAudioMimeTypes : List String :=
  ["audio/mpeg", "audio/mp4", "audio/ogg", "audio/wav", "audio/x-m4a",
   "audio/aac"]

/-- Failure reply of the voice handler (telegramHandlers.ts line 131). -/
def voiceFailureText : String :=
  "Sorry, I couldn't process your voice message. Please try again."

/-- Failure reply of the document handler (telegramHandlers.ts line 196). -/
def documentFailureText : String :=
  "Sorry, I couldn't process this audio document. Please try another file or check if it's a valid audio format."

/-- Unsupported-audio-format reply (telegramHandlers.ts line 214). -/
def unsupportedFormatText (mimeType : String) : String :=
  "Sorry, the audio format " ++ mimeType ++
    " is not supported. Please try one of: MP3, M4A, OGG, WAV, AAC."

/-- Observable side effects of one event's handling, in program order.
`sendMessage text html` records an outgoing reply together with whether the
`parse_mode: 'HTML'` option was passed. -/
inductive Action : Type
  | typingStart
  | typingStop
  | downloadCall (i : Nat)
  | transcribeCall (i : Nat)
  | delayWait
  | sendMessage (text : String) (html : Bool)
deriving DecidableEq, Repr

/-- A `retry`-run event of the download operation, as an `Action`. -/
def downloadAction : RetryAction → Action
  | RetryAction.invoke i => Action.downloadCall i
  | RetryAction.wait => Action.delayWait

/-- A `retry`-run event of the transcription operation, as an `Action`. -/
def transcribeAction : RetryAction → Action
  | RetryAction.invoke i => Action.transcribeCall i
  | RetryAction.wait => Action.delayWait

/-- The `bot.on('voice', ...)` handler (telegramHandlers.ts lines 77-142).
`voiceFileId = none` models a message without voice data / `file_id` (the
handler returns after logging).  `dl i` / `tr i` are the outcomes of the i-th
download / transcription attempt; both calls are wrapped in `retry` with the
default count 3.  Typing starts inside the `try` before the download; on
success it stops and the formatted reply is sent with `parse_mode: 'HTML'`;
on any failure the `catch` stops typing and sends the plain failure reply. -/
def handleVoice (voiceFileId : Option String)
    (dl : Nat → Except String (List Nat))
    (tr : Nat → Except String TranscriptionResult) : List Action :=
  match voiceFileId with
  | none => []
  | some _ =>
    let dlR := retry dl 3
    Action.typingStart ::
      (dlR.1.map downloadAction ++
        match dlR.2 with
        | Except.error _ =>
          [Action.typingStop, Action.sendMessage voiceFailureText false]
        | Except.ok _ =>
          let trR := retry tr 3
          trR.1.map transcribeAction ++
            match trR.2 with
            | Except.error _ =>
              [Action.typingStop, Action.sendMessage voiceFailureText false]
            | Except.ok res =>
              [Action.typingStop,
               Action.sendMessage (voiceTemplate res.transcribedText res.tldr)
                 true])

/-- The document branch of the `bot.on('message', ...)` handler
(telegramHandlers.ts lines 145-228), for a message carrying a document.
`mimeType = none` models an undeclared `mime_type` (the handler does
nothing; a declared empty string behaves identically since neither branch
guard holds for it).  On a supported audio MIME type: typing starts, the
download is `retry`-wrapped, the transcription is a single direct call
(attempt index 0, not retried), the success or failure reply is sent inside
the `try`/`catch`, and the `finally` block stops typing afterwards.  On an
unsupported `audio/`-prefixed type a "format not supported" reply is sent;
any other declared type is ignored silently. -/
def handleDocument (mimeType : Option String) (fileName : Option String)
    (dl : Nat → Except String (List Nat))
    (tr : Nat → Except String TranscriptionResult) : List Action :=
  match mimeType with
  | none => []
  | some m =>
    if supportedAudioMimeTypes.contains m then
      Action.typingStart ::
        (let dlR := retry dl 3
         dlR.1.map downloadAction ++
           match dlR.2 with
           | Except.error _ =>
             [Action.sendMessage documentFailureText false, Action.typingStop]
           | Except.ok _ =>
             Action.transcribeCall 0 ::
               match tr 0 with
               | Except.error _ =>
                 [Action.sendMessage documentFailureText false,
                  Action.typingStop]
               | Except.ok res =>
                 [Action.sendMessage
                    (documentReplyText fileName res.transcribedText res.tldr)
                    true,
                  Action.typingStop])
    else if jsStartsWith m "audio/" then
      [Action.sendMessage (unsupportedFormatText m) false]
    else []

/-! ## Transcription client (src/modules/aiService.ts, `transcribeAudio`) -/

/-- How the backend call resolves, when it does: either the forced
`outputTranscription` tool is executed with its arguments, or `generateText`
throws. -/
inductive BackendCompletion : Type
  | toolInvoked (transcribedText : String) (tldr : Option String)
  | callError (message : String)
deriving DecidableEq, Repr

/-- The `setTimeout` ceiling (aiService.ts line 47). -/
def transcriptionTimeoutMs : Nat := 60000

/-- The timeout rejection message (aiService.ts line 46). -/
def timeoutErrorMessage : String := "Transcription timed out after 60 seconds"

/-- The promise settlement a backend completion produces: the tool's
`execute` resolves with the parsed result, a thrown error rejects with it. -/
def settleOfCompletion :
    BackendCompletion → Except String (String × Option String)
  | BackendCompletion.toolInvoked t s => Except.ok (t, s)
  | BackendCompletion.callError m => Except.error m

/-- The timed settlement attempts made on the promise of `transcribeAudio`,
in time order, for a backend that completes at time `t` (or never,
`backend = none`).  A completion before the 60000 ms mark runs
`clearTimeout`, so the timer's rejection attempt never happens; otherwise the
timer fires first and the late completion's settlement attempt comes after
it. -/
def transcribeSettleEvents (backend : Option (Nat × BackendCompletion)) :
    List (Nat × Except String (String × Option String)) :=
  match backend with
  | none => [(transcriptionTimeoutMs, Except.error timeoutErrorMessage)]
  | some (t, c) =>
    if t < transcriptionTimeoutMs then [(t, settleOfCompletion c)]
    else
      [(transcriptionTimeoutMs, Except.error timeoutErrorMessage),
       (t, settleOfCompletion c)]

/-- JS promise settle-once semantics: the first settlement attempt wins and
every later `resolve`/`reject` is a no-op. -/
def promiseFirstSettle {E A : Type} (events : List (Nat × Except E A)) :
    Option (Nat × Except E A) :=
  events.foldl
    (fun st e =>
      match st with
      | some s => some s
      | none => some e)
    none

/-- The settled result of `transcribeAudio`'s promise (time and outcome). -/
def transcribeAudioResult (backend : Option (Nat × BackendCompletion)) :
    Option (Nat × Except String (String × Option String)) :=
  promiseFirstSettle (transcribeSettleEvents backend)

/-! ## Media extraction (`extractAudioFromVideoNote`, transcoder `end`
callback) -/

/-- The rejection message for a near-empty output buffer. -/
def tooSmallErrorMessage : String :=
  "Extracted audio file is too small - video note may not contain audio or may be silent"

/-- The transcoder `end` callback of `extractAudioFromVideoNote`: the
transcoder reported success and `audioBuffer` is the concatenated output;
fewer than 1000 bytes (`audioBuffer.length < 1000`, the code's "1KB") reject
the extraction promise, otherwise it resolves with the buffer. -/
def extractionEndResult (audioBuffer : List Nat) : Except String (List Nat) :=
  if audioBuffer.length < 1000 then Except.error tooSmallErrorMessage
  else Except.ok audioBuffer

/-! ## Lemmas about the retry loop -/

theorem retryAux_zero {E A : Type} (op : Nat → Except E A) (i : Nat)
    (le : Option E) : retryAux op i 0 le = ([], Except.error le) := rfl

theorem retryAux_succ_ok {E A : Type} (op : Nat → Except E A) (i r : Nat)
    (le : Option E) (a : A) (h : op i = Except.ok a) :
    retryAux op i (r + 1) le = ([RetryAction.invoke i], Except.ok a) := by
  unfold retryAux
  rw [h]

theorem retryAux_succ_err {E A : Type} (op : Nat → Except E A) (i r : Nat)
    (le : Option E) (e : E) (h : op i = Except.error e) :
    retryAux op i (r + 1) le =
      (RetryAction.invoke i :: RetryAction.wait ::
          (retryAux op (i + 1) r (some e)).1,
        (retryAux op (i + 1) r (some e)).2) := by
  simp only [retryAux, h]

theorem countInvokes_retryAux_le {E A : Type} (op : Nat → Except E A) :
    ∀ (r i : Nat) (le : Option E), countInvokes (retryAux op i r le).1 ≤ r := by
  intro r
  induction r with
  | zero =>
    intro i le
    simp [retryAux_zero, countInvokes]
  | succ n ih =>
    intro i le
    cases h : op i with
    | ok a =>
      rw [retryAux_succ_ok op i n le a h]
      simp [countInvokes, List.countP_cons, RetryAction.isInvoke]
    | error e =>
      rw [retryAux_succ_err op i n le e h]
      have hrec := ih (i + 1) (some e)
      simp [countInvokes, List.countP_cons, RetryAction.isInvoke] at hrec ⊢
      omega

theorem getLast?_cons_of_eq_some {α : Type} (a : α) {l : List α} {x : α}
    (h : l.getLast? = some x) : (a :: l).getLast? = some x := by
  cases l with
  | nil => simp at h
  | cons b t =>
    rw [List.getLast?_cons_cons]
    exact h

theorem retryAux_success {E A : Type} (op : Nat → Except E A) :
    ∀ (k r i : Nat) (le : Option E) (a : A), k < r →
      (∀ j, j < k → ∃ e, op (i + j) = Except.error e) →
      op (i + k) = Except.ok a →
      (retryAux op i r le).2 = Except.ok a ∧
        countInvokes (retryAux op i r le).1 = k + 1 := by
  intro k
  induction k with
  | zero =>
    intro r i le a hk _ hok
    obtain ⟨r', rfl⟩ : ∃ r', r = r' + 1 := ⟨r - 1, by omega⟩
    rw [Nat.add_zero] at hok
    rw [retryAux_succ_ok op i r' le a hok]
    simp [countInvokes, List.countP_cons, RetryAction.isInvoke]
  | succ k ih =>
    intro r i le a hk hfail hok
    obtain ⟨r', rfl⟩ : ∃ r', r = r' + 1 := ⟨r - 1, by omega⟩
    obtain ⟨e, he⟩ := hfail 0 (Nat.succ_pos k)
    rw [Nat.add_zero] at he
    rw [retryAux_succ_err op i r' le e he]
    have hfail' : ∀ j, j < k → ∃ e', op (i + 1 + j) = Except.error e' := by
      intro j hj
      obtain ⟨e', he'⟩ := hfail (j + 1) (by omega)
      refine ⟨e', ?_⟩
      rw [show i + 1 + j = i + (j + 1) by omega]
      exact he'
    have hok' : op (i + 1 + k) = Except.ok a := by
      rw [show i + 1 + k = i + (k + 1) by omega]
      exact hok
    have hrec := ih r' (i + 1) (some e) a (by omega) hfail' hok'
    refine ⟨hrec.1, ?_⟩
    have h2 := hrec.2
    simp [countInvokes, List.countP_cons, RetryAction.isInvoke] at h2 ⊢
    omega

theorem retryAux_all_fail {E A : Type} (op : Nat → Except E A) (f : Nat → E) :
    ∀ (r i : Nat) (le : Option E), 0 < r →
      (∀ j, j < r → op (i + j) = Except.error (f (i + j))) →
      (retryAux op i r le).2 = Except.error (some (f (i + (r - 1)))) ∧
        countInvokes (retryAux op i r le).1 = r ∧
        countWaits (retryAux op i r le).1 = r ∧
        (retryAux op i r le).1.getLast? = some RetryAction.wait := by
  intro r
  induction r with
  | zero =>
    intro i le h
    exact absurd h (by omega)
  | succ n ih =>
    intro i le _ herr
    have he0 : op i = Except.error (f i) := by
      have := herr 0 (by omega)
      rwa [Nat.add_zero] at this
    rw [retryAux_succ_err op i n le (f i) he0]
    cases n with
    | zero =>
      rw [retryAux_zero]
      refine ⟨by simp, ?_, ?_, rfl⟩
      · simp [countInvokes, List.countP_cons, RetryAction.isInvoke]
      · simp [countWaits, List.countP_cons, RetryAction.isWait]
    | succ m =>
      have herr' : ∀ j, j < m + 1 →
          op (i + 1 + j) = Except.error (f (i + 1 + j)) := by
        intro j hj
        have := herr (j + 1) (by omega)
        rwa [show i + (j + 1) = i + 1 + j by omega] at this
      have IH := ih (i + 1) (some (f i)) (by omega) herr'
      refine ⟨?_, ?_, ?_, ?_⟩
      · rw [show i + (m + 1 + 1 - 1) = i + 1 + (m + 1 - 1) by omega]
        exact IH.1
      · have h2 := IH.2.1
        simp [countInvokes, List.countP_cons, RetryAction.isInvoke] at h2 ⊢
        omega
      · have h3 := IH.2.2.1
        simp [countWaits, List.countP_cons, RetryAction.isWait] at h3 ⊢
        omega
      · exact getLast?_cons_of_eq_some _
          (getLast?_cons_of_eq_some _ IH.2.2.2)

/-! ## Claim theorems: the retry wrapper -/

/-- C1: `retry(op, n, d)` invokes `op` at most `n` times; if the k-th attempt
(`k < n`, zero-indexed) succeeds after the earlier attempts failed, that
attempt's result is returned after exactly `k + 1` invocations and no further
attempts occur; if all `n` attempts fail, the propagated error is exactly the
last attempt's error (wrapped in `some`, i.e. thrown unchanged). -/
theorem retry_contract {E A : Type} (op : Nat → Except E A) (n : Nat) :
    countInvokes (retry op n).1 ≤ n ∧
    (∀ k a, k < n → (∀ j, j < k → ∃ e, op j = Except.error e) →
      op k = Except.ok a →
      (retry op n).2 = Except.ok a ∧ countInvokes (retry op n).1 = k + 1) ∧
    (∀ f : Nat → E, 0 < n → (∀ j, j < n → op j = Except.error (f j)) →
      (retry op n).2 = Except.error (some (f (n - 1)))) := by
  refine ⟨countInvokes_retryAux_le op n 0 none, ?_, ?_⟩
  · intro k a hk hfail hok
    refine retryAux_success op k n 0 none a hk ?_ ?_
    · intro j hj
      rw [Nat.zero_add]
      exact hfail j hj
    · rw [Nat.zero_add]
      exact hok
  · intro f hn herr
    have h := retryAux_all_fail op f n 0 none hn ?_
    · have := h.1
      rwa [Nat.zero_add] at this
    · intro j hj
      rw [Nat.zero_add]
      exact herr j hj

/-- A download/transcription-like operation that fails once, then succeeds. -/
def opOnceFailing : Nat → Except String Nat :=
  fun i => if i = 0 then Except.error "e0" else Except.ok 7

/-- Witness for C1: with an operation failing on attempt 0 and succeeding on
attempt 1, `retry` with count 3 returns the successful result after exactly
two invocations. -/
theorem retry_contract_witness :
    (retry opOnceFailing 3).2 = Except.ok 7 ∧
      countInvokes (retry opOnceFailing 3).1 = 2 := by
  refine (retry_contract opOnceFailing 3).2.1 1 7 (by omega) ?_ rfl
  intro j hj
  have hj0 : j = 0 := by omega
  subst hj0
  exact ⟨"e0", rfl⟩

/-- C9: with a non-positive retry count the loop body never runs: the
operation is never invoked and `retry` throws the uninitialized `lastError`,
i.e. the JS `undefined` (modelled as `Except.error none`), not an `Error`
value. -/
theorem retry_nonpositive_count {E A : Type} (op : Nat → Except E A)
    (retries : Int) (h : retries ≤ 0) :
    (retryInt op retries).2 = Except.error none ∧
      countInvokes (retryInt op retries).1 = 0 := by
  unfold retryInt
  rw [Int.toNat_of_nonpos h]
  exact ⟨rfl, rfl⟩

/-- Witness for C9 at `retries = -1`. -/
theorem retry_nonpositive_count_witness :
    (-1 : Int) ≤ 0 ∧
      ((retryInt opOnceFailing (-1)).2 = Except.error none ∧
        countInvokes (retryInt opOnceFailing (-1)).1 = 0) :=
  ⟨by decide, retry_nonpositive_count opOnceFailing (-1) (by decide)⟩

/-- C10: when all `n` attempts fail, `retry` performs a delay wait after
every failed attempt including the final one — `n` waits in total, the last
recorded event being a wait — before propagating the last error. -/
theorem retry_waits_after_every_failure {E A : Type} (op : Nat → Except E A)
    (n : Nat) (f : Nat → E) (hn : 0 < n)
    (herr : ∀ j, j < n → op j = Except.error (f j)) :
    countWaits (retry op n).1 = n ∧
      (retry op n).1.getLast? = some RetryAction.wait ∧
      (retry op n).2 = Except.error (some (f (n - 1))) := by
  have h := retryAux_all_fail op f n 0 none hn ?_
  · refine ⟨h.2.2.1, h.2.2.2, ?_⟩
    have := h.1
    rwa [Nat.zero_add] at this
  · intro j hj
    rw [Nat.zero_add]
    exact herr j hj

/-- An operation failing on every attempt. -/
def opAlwaysFailing : Nat → Except String Nat :=
  fun _ => Except.error "down"

/-- Witness for C10 at `n = 3`: three waits, the trace ends with a wait, and
the propagated error is the third attempt's error. -/
theorem retry_waits_after_every_failure_witness :
    countWaits (retry opAlwaysFailing 3).1 = 3 ∧
      (retry opAlwaysFailing 3).1.getLast? = some RetryAction.wait ∧
      (retry opAlwaysFailing 3).2 = Except.error (some "down") :=
  retry_waits_after_every_failure opAlwaysFailing 3 (fun _ => "down")
    (by omega) (fun _ _ => rfl)

/-! ## Claim theorems: media extraction -/

/-- C6: when the transcoder reports success, an output buffer under the
1000-byte threshold (the code's "1KB") makes the extraction fail with the
"too small" error, and any buffer at or above the threshold is returned
unchanged. -/
theorem extraction_minimum_size (audioBuffer : List Nat) :
    (audioBuffer.length < 1000 →
      extractionEndResult audioBuffer = Except.error tooSmallErrorMessage) ∧
    (1000 ≤ audioBuffer.length →
      extractionEndResult audioBuffer = Except.ok audioBuffer) := by
  constructor
  · intro h
    unfold extractionEndResult
    rw [if_pos h]
  · intro h
    unfold extractionEndResult
    rw [if_neg (by omega)]

/-- Witness for C6: a 999-byte buffer is rejected even though the transcoder
succeeded; a 1000-byte buffer is returned unchanged. -/
theorem extraction_minimum_size_witness :
    extractionEndResult (List.replicate 999 0) =
        Except.error tooSmallErrorMessage ∧
      extractionEndResult (List.replicate 1000 0) =
        Except.ok (List.replicate 1000 0) :=
  ⟨(extraction_minimum_size (List.replicate 999 0)).1 (by simp),
   (extraction_minimum_size (List.replicate 1000 0)).2 (by simp)⟩

/-! ## Claim theorems: transcription timeout -/

/-- C3 counterexample: a backend error thrown 5 seconds into the call settles
the promise with that error at 5000 ms, although the output tool was never
invoked within 60 seconds — the rejection is not the timeout error, so the
claim "if the tool has not been invoked within 60 seconds, the promise
rejects with a timeout error" fails on the early-error path. -/
theorem early_backend_error_not_timeout :
    transcribeAudioResult
        (some (5000, BackendCompletion.callError "backend failed")) =
      some (5000, Except.error "backend failed") ∧
    ("backend failed" : String) ≠ timeoutErrorMessage ∧
    (5000 : Nat) ≠ transcriptionTimeoutMs :=
  ⟨rfl, by decide, by decide⟩

/-- C3 amended: if the backend neither invokes the output tool nor throws
strictly before the 60-second mark, the promise rejects at 60000 ms with the
timeout error, whatever the late completion is (it is disregarded, since the
promise has already settled); a backend completion strictly before 60 s
settles the promise with that completion at its time. -/
theorem transcription_timeout_contract
    (backend : Option (Nat × BackendCompletion)) :
    ((∀ t c, backend = some (t, c) → transcriptionTimeoutMs ≤ t) →
      transcribeAudioResult backend =
        some (transcriptionTimeoutMs, Except.error timeoutErrorMessage)) ∧
    (∀ t c, backend = some (t, c) → t < transcriptionTimeoutMs →
      transcribeAudioResult backend = some (t, settleOfCompletion c)) := by
  constructor
  · intro h
    cases backend with
    | none => rfl
    | some p =>
      obtain ⟨t, c⟩ := p
      have ht := h t c rfl
      simp only [transcribeAudioResult, transcribeSettleEvents]
      rw [if_neg (by omega)]
      rfl
  · intro t c hb ht
    subst hb
    simp only [transcribeAudioResult, transcribeSettleEvents]
    rw [if_pos ht]
    rfl

/-- Witness for C3 amended: a backend that invokes the tool only at 70 s is
disregarded and the result is the 60-second timeout rejection. -/
theorem transcription_timeout_contract_witness :
    transcribeAudioResult
        (some (70000, BackendCompletion.toolInvoked "late" none)) =
      some (transcriptionTimeoutMs, Except.error timeoutErrorMessage) :=
  (transcription_timeout_contract
      (some (70000, BackendCompletion.toolInvoked "late" none))).1
    (by
      intro t c h
      cases h
      decide)

/-! ## Claim theorems: reply formatting -/

theorem length_pos_of_ne_empty {s : String} (h : s ≠ "") : 0 < s.length := by
  obtain ⟨data⟩ := s
  cases data with
  | nil => exact absurd rfl h
  | cons c cs => simp [String.length]

/-- Concrete oracles for counterexamples and witnesses: a download that
always succeeds and a transcription returning `{"Hello", tldr: null}`. -/
def dlAlwaysOk : Nat → Except String (List Nat) := fun _ => Except.ok [0]

def trHello : Nat → Except String TranscriptionResult :=
  fun _ => Except.ok ⟨"Hello", none⟩

/-- C2 counterexample: on the audio-document reply path with `tldr = null`
the outgoing message is the transcription-header text, not `transcribedText`
verbatim, so the voice-path formatting rule does not hold on every reply
path. -/
theorem document_reply_not_verbatim :
    handleDocument (some "audio/ogg") none dlAlwaysOk trHello =
      [Action.typingStart, Action.downloadCall 0, Action.transcribeCall 0,
       Action.sendMessage
         "<b>Transcription (Document: audio file):</b>\nHello" true,
       Action.typingStop] ∧
    ("<b>Transcription (Document: audio file):</b>\nHello" : String) ≠
      "Hello" :=
  ⟨rfl, by decide⟩

/-- C2 amended: on the voice path, a `null`, empty or whitespace-only `tldr`
makes the outgoing message equal `transcribedText` verbatim, and a non-blank
`tldr` produces the two-part message with the tldr ordered first.  On the
audio-document path the message always begins with a transcription header
(so it is strictly longer than, and never equal to, `transcribedText`), and
a non-empty `tldr` — whitespace-only included — is appended after the
transcript. -/
theorem reply_formatting (text t : String) (fileName : Option String) :
    voiceTemplate text none = text ∧
    (jsTrim t = "" → voiceTemplate text (some t) = text) ∧
    (jsTrim t ≠ "" →
      voiceTemplate text (some t) =
        "<b>TLDR:</b>\n" ++ t ++ "\n<b>Original text:</b>\n" ++ text) ∧
    (t ≠ "" →
      documentReplyText fileName text (some t) =
        documentHeader fileName ++ text ++ "\n\n<b>TLDR:</b>\n" ++ t) ∧
    documentReplyText fileName text none = documentHeader fileName ++ text ∧
    text.length < (documentReplyText fileName text none).length := by
  have hpos : 0 < (documentHeader fileName).length := by
    unfold documentHeader
    rw [String.length_append, String.length_append]
    have h28 : 0 < ("<b>Transcription (Document: " : String).length := by
      decide
    omega
  refine ⟨rfl, ?_, ?_, ?_, rfl, ?_⟩
  · intro h
    show (if jsTrim t ≠ "" ∧ t.length > 0 then
        "<b>TLDR:</b>\n" ++ t ++ "\n<b>Original text:</b>\n" ++ text
      else text) = text
    rw [if_neg]
    intro hc
    exact hc.1 h
  · intro h
    have ht : t ≠ "" := by
      intro he
      subst he
      exact h rfl
    show (if jsTrim t ≠ "" ∧ t.length > 0 then
        "<b>TLDR:</b>\n" ++ t ++ "\n<b>Original text:</b>\n" ++ text
      else text) = _
    rw [if_pos ⟨h, length_pos_of_ne_empty ht⟩]
  · intro h
    show (if t ≠ "" then
        documentHeader fileName ++ text ++ "\n\n<b>TLDR:</b>\n" ++ t
      else documentHeader fileName ++ text) = _
    rw [if_pos h]
  · show text.length < (documentHeader fileName ++ text).length
    rw [String.length_append]
    omega

/-- Witness for C2 amended: blank and non-blank tldr values on both paths,
at concrete strings, with every hypothesis discharged by evaluation. -/
theorem reply_formatting_witness :
    voiceTemplate "Hi" (some " ") = "Hi" ∧
      voiceTemplate "Hi" (some "S") =
        "<b>TLDR:</b>\n" ++ "S" ++ "\n<b>Original text:</b>\n" ++ "Hi" ∧
      documentReplyText none "Hi" (some "S") =
        documentHeader none ++ "Hi" ++ "\n\n<b>TLDR:</b>\n" ++ "S" ∧
      documentReplyText none "Hi" none = documentHeader none ++ "Hi" :=
  ⟨(reply_formatting "Hi" " " none).2.1 (by decide),
   (reply_formatting "Hi" "S" none).2.2.1 (by decide),
   (reply_formatting "Hi" "S" none).2.2.2.1 (by decide),
   (reply_formatting "Hi" "S" none).2.2.2.2.1⟩

/-- C8: on the voice-message success path the reply is always sent with
`parse_mode: 'HTML'`, including when `tldr` is absent, in which case the
body is the bare `transcribedText`. -/
theorem voice_reply_uses_html (f text : String) (tldr : Option String)
    (dl : Nat → Except String (List Nat))
    (tr : Nat → Except String TranscriptionResult)
    (hdl : ∃ b, (retry dl 3).2 = Except.ok b)
    (htr : (retry tr 3).2 = Except.ok ⟨text, tldr⟩) :
    handleVoice (some f) dl tr =
      Action.typingStart :: ((retry dl 3).1.map downloadAction ++
        ((retry tr 3).1.map transcribeAction ++
          [Action.typingStop,
           Action.sendMessage (voiceTemplate text tldr) true])) ∧
    voiceTemplate text none = text := by
  obtain ⟨b, hb⟩ := hdl
  refine ⟨?_, rfl⟩
  simp only [handleVoice, hb, htr]

/-- Witness for C8: with always-succeeding oracles and `tldr = null` the
reply is the bare transcript sent with HTML parse mode. -/
theorem voice_reply_uses_html_witness :
    handleVoice (some "f") dlAlwaysOk trHello =
      Action.typingStart :: ((retry dlAlwaysOk 3).1.map downloadAction ++
        ((retry trHello 3).1.map transcribeAction ++
          [Action.typingStop,
           Action.sendMessage (voiceTemplate "Hello" none) true])) ∧
    voiceTemplate "Hello" none = "Hello" :=
  voice_reply_uses_html "f" "Hello" none dlAlwaysOk trHello ⟨[0], rfl⟩ rfl

/-! ## Claim theorems: handler structure (retry usage, typing lifecycle,
MIME gating) -/

def Action.isDownloadCall : Action → Bool
  | Action.downloadCall _ => true
  | _ => false

def Action.isTranscribeCall : Action → Bool
  | Action.transcribeCall _ => true
  | _ => false

def Action.isSend : Action → Bool
  | Action.sendMessage _ _ => true
  | _ => false

/-- The actions between typing start and the reply: long-running calls and
retry delays, no typing change and no outgoing message. -/
def Action.neutral : Action → Bool
  | Action.downloadCall _ => true
  | Action.transcribeCall _ => true
  | Action.delayWait => true
  | _ => false

def countDownloadCalls (l : List Action) : Nat :=
  l.countP Action.isDownloadCall

def countTranscribeCalls (l : List Action) : Nat :=
  l.countP Action.isTranscribeCall

/-- `true` iff every outgoing message in the trace is strictly preceded by
some typing-stop. -/
def stopBeforeEachSend (tr : List Action) : Bool :=
  (tr.foldl
    (fun st a =>
      match a with
      | Action.typingStop => (true, st.2)
      | Action.sendMessage _ _ => (st.1, st.2 && st.1)
      | _ => st)
    (false, true)).2

@[simp] theorem isDownloadCall_typingStart :
    Action.typingStart.isDownloadCall = false := rfl

@[simp] theorem isDownloadCall_typingStop :
    Action.typingStop.isDownloadCall = false := rfl

@[simp] theorem isDownloadCall_downloadCall (i : Nat) :
    (Action.downloadCall i).isDownloadCall = true := rfl

@[simp] theorem isDownloadCall_transcribeCall (i : Nat) :
    (Action.transcribeCall i).isDownloadCall = false := rfl

@[simp] theorem isDownloadCall_delayWait :
    Action.delayWait.isDownloadCall = false := rfl

@[simp] theorem isDownloadCall_sendMessage (t : String) (b : Bool) :
    (Action.sendMessage t b).isDownloadCall = false := rfl

@[simp] theorem isTranscribeCall_typingStart :
    Action.typingStart.isTranscribeCall = false := rfl

@[simp] theorem isTranscribeCall_typingStop :
    Action.typingStop.isTranscribeCall = false := rfl

@[simp] theorem isTranscribeCall_downloadCall (i : Nat) :
    (Action.downloadCall i).isTranscribeCall = false := rfl

@[simp] theorem isTranscribeCall_transcribeCall (i : Nat) :
    (Action.transcribeCall i).isTranscribeCall = true := rfl

@[simp] theorem isTranscribeCall_delayWait :
    Action.delayWait.isTranscribeCall = false := rfl

@[simp] theorem isTranscribeCall_sendMessage (t : String) (b : Bool) :
    (Action.sendMessage t b).isTranscribeCall = false := rfl

@[simp] theorem isDownload_comp_download :
    Action.isDownloadCall ∘ downloadAction = RetryAction.isInvoke := by
  funext x
  cases x <;> rfl

@[simp] theorem isDownload_comp_transcribe :
    Action.isDownloadCall ∘ transcribeAction = fun _ => false := by
  funext x
  cases x <;> rfl

@[simp] theorem isTranscribe_comp_download :
    Action.isTranscribeCall ∘ downloadAction = fun _ => false := by
  funext x
  cases x <;> rfl

@[simp] theorem isTranscribe_comp_transcribe :
    Action.isTranscribeCall ∘ transcribeAction = RetryAction.isInvoke := by
  funext x
  cases x <;> rfl

theorem neutral_downloadAction (x : RetryAction) :
    (downloadAction x).neutral = true := by
  cases x <;> rfl

theorem neutral_transcribeAction (x : RetryAction) :
    (transcribeAction x).neutral = true := by
  cases x <;> rfl

theorem isDownloadCall_downloadAction (x : RetryAction) :
    (downloadAction x).isDownloadCall = RetryAction.isInvoke x := by
  cases x <;> rfl

theorem isTranscribeCall_downloadAction (x : RetryAction) :
    (downloadAction x).isTranscribeCall = false := by
  cases x <;> rfl

theorem isDownloadCall_transcribeAction (x : RetryAction) :
    (transcribeAction x).isDownloadCall = false := by
  cases x <;> rfl

theorem isTranscribeCall_transcribeAction (x : RetryAction) :
    (transcribeAction x).isTranscribeCall = RetryAction.isInvoke x := by
  cases x <;> rfl

/-- Every entry of the MIME allow-list starts with `audio/`. -/
theorem supported_types_all_audio :
    ∀ m ∈ supportedAudioMimeTypes, jsStartsWith m "audio/" = true := by
  decide

theorem contains_of_mem {l : List String} {m : String} (h : m ∈ l) :
    l.contains m = true := by
  simpa using h

/-- C7: a document with an `audio/`-prefixed MIME type outside the
allow-list yields exactly one outgoing "format not supported" reply and
nothing else (no typing, no download, no transcription call); a document
with a non-audio MIME type yields the empty trace (no reply, no
processing). -/
theorem unsupported_document_types (m : String) (fileName : Option String)
    (dl : Nat → Except String (List Nat))
    (tr : Nat → Except String TranscriptionResult) :
    (jsStartsWith m "audio/" = true →
      supportedAudioMimeTypes.contains m = false →
      handleDocument (some m) fileName dl tr =
        [Action.sendMessage (unsupportedFormatText m) false]) ∧
    (jsStartsWith m "audio/" = false →
      handleDocument (some m) fileName dl tr = []) := by
  have hofc : supportedAudioMimeTypes.contains m = false →
      m ∉ supportedAudioMimeTypes := by
    intro hcf hmem
    rw [contains_of_mem hmem] at hcf
    exact absurd hcf (by decide)
  constructor
  · intro ha hs
    simp [handleDocument, hofc hs, ha]
  · intro ha
    have hc : supportedAudioMimeTypes.contains m = false := by
      cases h : supportedAudioMimeTypes.contains m
      · rfl
      · have hm : m ∈ supportedAudioMimeTypes := List.mem_of_elem_eq_true h
        have := supported_types_all_audio m hm
        rw [ha] at this
        exact absurd this (by decide)
    simp [handleDocument, hofc hc, ha]

/-- Witness for C7 at `audio/flac` (audio-prefixed, unsupported) and
`application/pdf` (non-audio). -/
theorem unsupported_document_types_witness :
    handleDocument (some "audio/flac") none dlAlwaysOk trHello =
        [Action.sendMessage (unsupportedFormatText "audio/flac") false] ∧
      handleDocument (some "application/pdf") none dlAlwaysOk trHello = [] :=
  ⟨(unsupported_document_types "audio/flac" none dlAlwaysOk trHello).1
      (by decide) (by decide),
   (unsupported_document_types "application/pdf" none dlAlwaysOk trHello).2
      (by decide)⟩

/-- A transcription backend that fails on its first attempt only. -/
def trOnceFailing : Nat → Except String TranscriptionResult :=
  fun i =>
    if i = 0 then Except.error "transcription failed"
    else Except.ok ⟨"Hello", none⟩

/-- C4 counterexample: with a download that succeeds and a transcription
that fails only on its first attempt, the voice handler retries and succeeds
(two transcription calls), while the document handler makes exactly one
transcription call and sends the failure reply — so the transcription call
is not wrapped in the retry wrapper on the document path. -/
theorem document_transcription_not_retried_cx :
    handleDocument (some "audio/ogg") none dlAlwaysOk trOnceFailing =
      [Action.typingStart, Action.downloadCall 0, Action.transcribeCall 0,
       Action.sendMessage documentFailureText false, Action.typingStop] ∧
    handleVoice (some "f") dlAlwaysOk trOnceFailing =
      [Action.typingStart, Action.downloadCall 0, Action.transcribeCall 0,
       Action.delayWait, Action.transcribeCall 1, Action.typingStop,
       Action.sendMessage "Hello" true] :=
  ⟨rfl, rfl⟩

/-- C4 amended: for supported audio documents the download is wrapped in the
retry wrapper (at most 3 download attempts, exactly as on the voice path),
but the transcription is a single direct call: at most one transcription
call ever occurs, and exactly one occurs whenever the download succeeds —
whereas the voice path allows up to 3 transcription attempts. -/
theorem document_download_retried_transcription_direct (m f : String)
    (fileName : Option String) (dl : Nat → Except String (List Nat))
    (tr : Nat → Except String TranscriptionResult)
    (hm : supportedAudioMimeTypes.contains m = true) :
    countDownloadCalls (handleDocument (some m) fileName dl tr) ≤ 3 ∧
    countTranscribeCalls (handleDocument (some m) fileName dl tr) ≤ 1 ∧
    ((retry dl 3).2.isOk = true →
      countTranscribeCalls (handleDocument (some m) fileName dl tr) = 1) ∧
    countDownloadCalls (handleVoice (some f) dl tr) ≤ 3 ∧
    countTranscribeCalls (handleVoice (some f) dl tr) ≤ 3 := by
  have hdl3 : countInvokes (retry dl 3).1 ≤ 3 :=
    countInvokes_retryAux_le dl 3 0 none
  have htr3 : countInvokes (retry tr 3).1 ≤ 3 :=
    countInvokes_retryAux_le tr 3 0 none
  have hmem : m ∈ supportedAudioMimeTypes := List.mem_of_elem_eq_true hm
  simp only [countInvokes] at hdl3 htr3
  refine ⟨?_, ?_, ?_, ?_, ?_⟩
  · cases hres : (retry dl 3).2 with
    | error e =>
      simp [handleDocument, hmem, hres, countDownloadCalls]
      omega
    | ok b =>
      cases htr0 : tr 0 with
      | error e =>
        simp [handleDocument, hmem, hres, htr0, countDownloadCalls]
        omega
      | ok res =>
        simp [handleDocument, hmem, hres, htr0, countDownloadCalls]
        omega
  · cases hres : (retry dl 3).2 with
    | error e =>
      simp [handleDocument, hmem, hres, countTranscribeCalls]
    | ok b =>
      cases htr0 : tr 0 with
      | error e =>
        simp [handleDocument, hmem, hres, htr0, countTranscribeCalls]
      | ok res =>
        simp [handleDocument, hmem, hres, htr0, countTranscribeCalls]
  · intro hok
    cases hres : (retry dl 3).2 with
    | error e =>
      rw [hres] at hok
      simp [Except.isOk, Except.toBool] at hok
    | ok b =>
      cases htr0 : tr 0 with
      | error e =>
        simp [handleDocument, hmem, hres, htr0, countTranscribeCalls]
      | ok res =>
        simp [handleDocument, hmem, hres, htr0, countTranscribeCalls]
  · cases hres : (retry dl 3).2 with
    | error e =>
      simp [handleVoice, hres, countDownloadCalls]
      omega
    | ok b =>
      cases hres2 : (retry tr 3).2 with
      | error e =>
        simp [handleVoice, hres, hres2, countDownloadCalls]
        omega
      | ok res =>
        simp [handleVoice, hres, hres2, countDownloadCalls]
        omega
  · cases hres : (retry dl 3).2 with
    | error e =>
      simp [handleVoice, hres, countTranscribeCalls]
    | ok b =>
      cases hres2 : (retry tr 3).2 with
      | error e =>
        simp [handleVoice, hres, hres2, countTranscribeCalls]
        omega
      | ok res =>
        simp [handleVoice, hres, hres2, countTranscribeCalls]
        omega

/-- Witness for C4 amended at `audio/ogg` with the concrete flaky
transcription backend. -/
theorem document_download_retried_transcription_direct_witness :
    countDownloadCalls
        (handleDocument (some "audio/ogg") none dlAlwaysOk trOnceFailing) ≤
      3 ∧
    countTranscribeCalls
        (handleDocument (some "audio/ogg") none dlAlwaysOk trOnceFailing) ≤
      1 ∧
    ((retry dlAlwaysOk 3).2.isOk = true →
      countTranscribeCalls
          (handleDocument (some "audio/ogg") none dlAlwaysOk trOnceFailing) =
        1) ∧
    countDownloadCalls (handleVoice (some "f") dlAlwaysOk trOnceFailing) ≤
      3 ∧
    countTranscribeCalls (handleVoice (some "f") dlAlwaysOk trOnceFailing) ≤
      3 :=
  document_download_retried_transcription_direct "audio/ogg" "f" none
    dlAlwaysOk trOnceFailing rfl

/-- C5 counterexample: on the audio-document path the reply is sent inside
the `try`/`catch` and the typing indicator is stopped only afterwards in the
`finally` block, so on this path the typing stop does not precede the final
reply (the trace contains a reply, and no reply is preceded by a stop). -/
theorem document_typing_stop_after_reply_cx :
    handleDocument (some "audio/ogg") none dlAlwaysOk trHello =
      [Action.typingStart, Action.downloadCall 0, Action.transcribeCall 0,
       Action.sendMessage
         "<b>Transcription (Document: audio file):</b>\nHello" true,
       Action.typingStop] ∧
    stopBeforeEachSend
        (handleDocument (some "audio/ogg") none dlAlwaysOk trHello) = false ∧
    (handleDocument (some "audio/ogg") none dlAlwaysOk trHello).countP
        Action.isSend = 1 :=
  ⟨rfl, rfl, rfl⟩

/-- C5 amended: on both paths the typing indicator starts before any
long-running call and is never left running when the event's handling
finishes: the voice handler's trace is `typingStart`, then only
download/wait/transcription actions, then `typingStop` immediately followed
by the final reply; the document handler's trace is `typingStart`, then only
download/wait/transcription actions, then the final reply immediately
followed by `typingStop` — on the document path the stop comes after, not
before, the reply. -/
theorem typing_indicator_lifecycle (f m : String) (fileName : Option String)
    (dl : Nat → Except String (List Nat))
    (tr : Nat → Except String TranscriptionResult)
    (hm : supportedAudioMimeTypes.contains m = true) :
    (∃ mid text html, handleVoice (some f) dl tr =
        Action.typingStart :: mid ++
          [Action.typingStop, Action.sendMessage text html] ∧
        ∀ a ∈ mid, Action.neutral a = true) ∧
    (∃ mid text html, handleDocument (some m) fileName dl tr =
        Action.typingStart :: mid ++
          [Action.sendMessage text html, Action.typingStop] ∧
        ∀ a ∈ mid, Action.neutral a = true) := by
  have hmem : m ∈ supportedAudioMimeTypes := List.mem_of_elem_eq_true hm
  have hmemD : ∀ a ∈ (retry dl 3).1.map downloadAction,
      Action.neutral a = true := by
    intro a ha
    obtain ⟨x, _, rfl⟩ := List.mem_map.mp ha
    exact neutral_downloadAction x
  have hmemT : ∀ a ∈ (retry tr 3).1.map transcribeAction,
      Action.neutral a = true := by
    intro a ha
    obtain ⟨x, _, rfl⟩ := List.mem_map.mp ha
    exact neutral_transcribeAction x
  constructor
  · cases hres : (retry dl 3).2 with
    | error e =>
      refine ⟨(retry dl 3).1.map downloadAction, voiceFailureText, false,
        ?_, hmemD⟩
      simp [handleVoice, hres, List.append_assoc]
    | ok b =>
      cases hres2 : (retry tr 3).2 with
      | error e =>
        refine ⟨(retry dl 3).1.map downloadAction ++
            (retry tr 3).1.map transcribeAction, voiceFailureText, false,
          ?_, ?_⟩
        · simp [handleVoice, hres, hres2, List.append_assoc]
        · intro a ha
          rcases List.mem_append.mp ha with h | h
          · exact hmemD a h
          · exact hmemT a h
      | ok res =>
        refine ⟨(retry dl 3).1.map downloadAction ++
            (retry tr 3).1.map transcribeAction,
          voiceTemplate res.transcribedText res.tldr, true, ?_, ?_⟩
        · simp [handleVoice, hres, hres2, List.append_assoc]
        · intro a ha
          rcases List.mem_append.mp ha with h | h
          · exact hmemD a h
          · exact hmemT a h
  · cases hres : (retry dl 3).2 with
    | error e =>
      refine ⟨(retry dl 3).1.map downloadAction, documentFailureText, false,
        ?_, hmemD⟩
      simp [handleDocument, hmem, hres, List.append_assoc]
    | ok b =>
      cases htr0 : tr 0 with
      | error e =>
        refine ⟨(retry dl 3).1.map downloadAction ++
            [Action.transcribeCall 0], documentFailureText, false, ?_, ?_⟩
        · simp [handleDocument, hmem, hres, htr0, List.append_assoc]
        · intro a ha
          rcases List.mem_append.mp ha with h | h
          · exact hmemD a h
          · simp at h
            subst h
            rfl
      | ok res =>
        refine ⟨(retry dl 3).1.map downloadAction ++
            [Action.transcribeCall 0],
          documentReplyText fileName res.transcribedText res.tldr, true,
          ?_, ?_⟩
        · simp [handleDocument, hmem, hres, htr0, List.append_assoc]
        · intro a ha
          rcases List.mem_append.mp ha with h | h
          · exact hmemD a h
          · simp at h
            subst h
            rfl

/-- Witness for C5 amended, at concrete oracles on both paths. -/
theorem typing_indicator_lifecycle_witness :
    (∃ mid text html, handleVoice (some "f") dlAlwaysOk trHello =
        Action.typingStart :: mid ++
          [Action.typingStop, Action.sendMessage text html] ∧
        ∀ a ∈ mid, Action.neutral a = true) ∧
    (∃ mid text html, handleDocument (some "audio/ogg") none dlAlwaysOk
          trHello =
        Action.typingStart :: mid ++
          [Action.sendMessage text html, Action.typingStop] ∧
        ∀ a ∈ mid, Action.neutral a = true) :=
  typing_indicator_lifecycle "f" "audio/ogg" none dlAlwaysOk trHello rfl

end VoiceoverBot
